import Mathlib

/-!
Shallow embedding of the `mcp-daemonize` core (process supervisor and
in-memory log buffer) together with theorems settling the frozen claims.

The log buffer (`logger.go`) is pure state-passing code and is embedded
directly.  The supervisor (`daemon.go`, the variant with the `done`
channel and the `exitError` field) performs OS calls and races goroutines;
it is embedded as pure functions over an explicit environment record that
fixes the outcome of each OS call (`Getpgid`, `Kill`) and which arm of the
`select` fires, and each function additionally returns the list of
observable events (signal sends, observation of waiter completion) it
performed, in order.  Go byte slices are modelled as `List Nat`, Go `int`
and `int64` as `Int` (all quantities involved here are far below 2^63, so
no wraparound can occur on any reachable value).
-/

/-! ### Log buffer (`logger.go`) -/

/-- The only error value the log buffer ever returns: `io.EOF`. -/
inductive LogErr where
  | eof
  deriving DecidableEq, Repr

/-- `memoryLogger`: an ordered sequence of stored lines (each a byte
sequence) and the capacity bound `maxLines`. -/
structure MemoryLogger where
  lines : List (List Nat)
  maxLines : Int
  deriving DecidableEq, Repr

/-- `NewMemoryLogger`: empty line list, cap 1024. -/
def NewMemoryLogger : MemoryLogger :=
  { lines := [], maxLines := 1024 }

/-- The trailing-newline strip performed at the top of `Write`:
if the byte slice is nonempty and its last byte is `'\n'` (10), drop
that byte; otherwise keep the slice as is. -/
def stripNewline (p : List Nat) : List Nat :=
  if p.getLast? = some 10 then p.dropLast else p

/-- `memoryLogger.Write`: append the stripped line, evict the single
oldest line when the count exceeds `maxLines`, return the full input
length and no error. -/
def MemoryLogger.write (m : MemoryLogger) (p : List Nat) :
    (Nat × Option LogErr) × MemoryLogger :=
  let line := stripNewline p
  let ls := m.lines ++ [line]
  let ls := if m.maxLines < (ls.length : Int) then ls.drop 1 else ls
  ((p.length, none), { m with lines := ls })

/-- `memoryLogger.ReadLine`: out-of-range offsets (negative or at least
the current count) fail with `io.EOF`; otherwise return the suffix from
`offset` and retain only the strict prefix before `offset`.  The source's
second range check is kept even though it is unreachable. -/
def MemoryLogger.readLine (m : MemoryLogger) (offset : Int) :
    Except LogErr (List (List Nat)) × MemoryLogger :=
  if offset < 0 ∨ (m.lines.length : Int) ≤ offset then
    (.error .eof, m)
  else if (m.lines.length : Int) ≤ offset then
    (.ok [], m)
  else
    (.ok (m.lines.drop offset.toNat), { m with lines := m.lines.take offset.toNat })

/-- `memoryLogger.Lines`: the current stored count. -/
def MemoryLogger.linesCount (m : MemoryLogger) : Int :=
  (m.lines.length : Int)

/-- `memoryLogger.Close`: a no-op returning no error. -/
def MemoryLogger.close (m : MemoryLogger) : Option LogErr × MemoryLogger :=
  (none, m)

/-- The capacity invariant of the buffer: the stored count never exceeds
the cap. -/
def capInv (m : MemoryLogger) : Prop :=
  (m.lines.length : Int) ≤ m.maxLines

/-- Claim C7: `ReadLine offset` fails with end-of-data exactly when
`offset` is negative or at least the current line count (in particular
every offset fails on an empty buffer); otherwise it returns the nonempty
suffix of lines from `offset` on, retains only the lines strictly before
`offset`, and repeating the same read then fails with end-of-data. -/
theorem readLine_consuming_spec (m : MemoryLogger) (o : Int) :
    ((o < 0 ∨ m.linesCount ≤ o) → m.readLine o = (.error .eof, m)) ∧
    (0 ≤ o → o < m.linesCount →
      (m.readLine o).1 = .ok (m.lines.drop o.toNat) ∧
      m.lines.drop o.toNat ≠ [] ∧
      (m.readLine o).2.lines = m.lines.take o.toNat ∧
      ((m.readLine o).2.readLine o).1 = .error .eof) := by
  constructor
  · intro h
    simp only [MemoryLogger.readLine, MemoryLogger.linesCount] at *
    rw [if_pos h]
  · intro h0 hlt
    simp only [MemoryLogger.linesCount] at hlt
    have hcond : ¬ (o < 0 ∨ (m.lines.length : Int) ≤ o) := by omega
    have hcond2 : ¬ ((m.lines.length : Int) ≤ o) := by omega
    have hdrop : m.lines.drop o.toNat ≠ [] := by
      have : o.toNat < m.lines.length := by omega
      intro hnil
      have := List.drop_eq_nil_iff.mp hnil
      omega
    refine ⟨?_, hdrop, ?_, ?_⟩
    · simp only [MemoryLogger.readLine]
      rw [if_neg hcond, if_neg hcond2]
    · simp only [MemoryLogger.readLine]
      rw [if_neg hcond, if_neg hcond2]
    · have htake : ((m.lines.take o.toNat).length : Int) ≤ o := by
        have : (m.lines.take o.toNat).length = min o.toNat m.lines.length :=
          List.length_take _ _
        omega
      simp only [MemoryLogger.readLine]
      rw [if_neg hcond, if_neg hcond2]
      simp only [MemoryLogger.readLine]
      rw [if_pos (Or.inr htake)]

/-- Witness for C7: on a fresh (empty) buffer even offset 0 fails with
end-of-data. -/
theorem readLine_consuming_spec_witness :
    NewMemoryLogger.readLine 0 = (.error .eof, NewMemoryLogger) :=
  (readLine_consuming_spec NewMemoryLogger 0).1 (Or.inr (by decide))

/-- Claim C8: `Write` always succeeds, returns the full input length,
appends exactly one stored line equal to the input with at most one
trailing `'\n'` stripped, and evicts the single oldest stored line
exactly when the append pushes the count past the cap. -/
theorem write_append_spec (m : MemoryLogger) (p : List Nat) :
    (m.write p).1.1 = p.length ∧
    (m.write p).1.2 = none ∧
    (p.getLast? = some 10 → stripNewline p = p.dropLast) ∧
    (p.getLast? ≠ some 10 → stripNewline p = p) ∧
    ((m.lines.length : Int) + 1 ≤ m.maxLines →
      (m.write p).2.lines = m.lines ++ [stripNewline p]) ∧
    (m.maxLines < (m.lines.length : Int) + 1 →
      (m.write p).2.lines = (m.lines ++ [stripNewline p]).drop 1) ∧
    (m.write p).2.maxLines = m.maxLines := by
  refine ⟨rfl, rfl, ?_, ?_, ?_, ?_, rfl⟩
  · intro h
    simp only [stripNewline]
    rw [if_pos h]
  · intro h
    simp only [stripNewline]
    rw [if_neg h]
  · intro h
    have hc : ¬ m.maxLines < ((m.lines ++ [stripNewline p]).length : Int) := by
      simp only [List.length_append, List.length_cons, List.length_nil]
      push_cast
      omega
    simp only [MemoryLogger.write]
    rw [if_neg hc]
  · intro h
    have hc : m.maxLines < ((m.lines ++ [stripNewline p]).length : Int) := by
      simp only [List.length_append, List.length_cons, List.length_nil]
      push_cast
      omega
    simp only [MemoryLogger.write]
    rw [if_pos hc]

/-- Witness for C8: writing the two bytes `"a\n"` to a fresh buffer
returns length 2 and stores the single stripped line `[97]`. -/
theorem write_append_spec_witness :
    (NewMemoryLogger.write [97, 10]).1.1 = 2 ∧
    (NewMemoryLogger.write [97, 10]).2.lines = [] ++ [stripNewline [97, 10]] :=
  ⟨(write_append_spec NewMemoryLogger [97, 10]).1,
   (write_append_spec NewMemoryLogger [97, 10]).2.2.2.2.1 (by decide)⟩

/-- Claim C9: the bound "stored count ≤ cap" holds of the freshly
constructed buffer and is preserved by `Write`, `ReadLine`, `Lines`
and `Close`; in particular `Lines()` never reports more than the cap
after any write completes. -/
theorem cap_invariant_preserved :
    capInv NewMemoryLogger ∧
    (∀ m p, capInv m → capInv (m.write p).2) ∧
    (∀ m o, capInv m → capInv (m.readLine o).2) ∧
    (∀ m, capInv m → capInv (m.close).2) ∧
    (∀ m p, capInv m → ((m.write p).2.linesCount ≤ (m.write p).2.maxLines)) := by
  have hwrite : ∀ m p, capInv m → capInv (MemoryLogger.write m p).2 := by
    intro m p hm
    simp only [capInv, MemoryLogger.write] at *
    split
    · simp only [List.length_drop, List.length_append, List.length_cons,
        List.length_nil]
      push_cast
      omega
    · rename_i hc
      simp only [not_lt] at hc
      exact hc
  refine ⟨by simp [capInv, NewMemoryLogger], hwrite, ?_, ?_, ?_⟩
  · intro m o hm
    simp only [capInv, MemoryLogger.readLine] at *
    split
    · exact hm
    · split
      · exact hm
      · simp only [List.length_take]
        push_cast
        omega
  · intro m hm
    exact hm
  · intro m p hm
    have := hwrite m p hm
    simpa [capInv, MemoryLogger.linesCount] using this

/-- Witness for C9: writing one line to the fresh buffer keeps the count
within the cap. -/
theorem cap_invariant_preserved_witness :
    capInv (NewMemoryLogger.write [104]).2 :=
  cap_invariant_preserved.2.1 NewMemoryLogger [104]
    (by simp [capInv, NewMemoryLogger])

/-! ### Process supervisor (`daemon.go`, `done`-channel variant) -/

/-- Signals the supervisor sends: `SIGINT` (graceful), `SIGKILL`
(escalation), and the null signal 0 (liveness probe). -/
inductive Sig where
  | sigint
  | sigkill
  | nullSig
  deriving DecidableEq, Repr

/-- Observable events of a supervisor call, in program order:
a `syscall.Kill(target, sig)` invocation, and the observation that the
background waiter has completed (a receive from the closed `done`
channel, which the waiter closes via `defer` when it finishes). -/
inductive Event where
  | kill (target : Int) (sig : Sig)
  | waiterDone
  deriving DecidableEq, Repr

/-- Error of a `syscall.Kill` call, classified the way the source
classifies it: either `os.ErrProcessDone` ("process already gone") or
some other OS error. -/
inductive KillErr where
  | processDone
  | other (n : Nat)
  deriving DecidableEq, Repr

/-- `errors.Is(err, os.ErrProcessDone)` on a kill error. -/
def KillErr.isProcessDone : KillErr → Bool
  | .processDone => true
  | .other _ => false

/-- Error of a `syscall.Getpgid` call: `syscall.ESRCH` ("no such
process") or some other OS error. -/
inductive PgidErr where
  | esrch
  | other (n : Nat)
  deriving DecidableEq, Repr

/-- Error returned by the `pgid` helper: `ErrDaemonNotRunning` from its
own nil checks, or the OS error from `Getpgid`. -/
inductive PgidFail where
  | notRunning
  | os (e : PgidErr)
  deriving DecidableEq, Repr

/-- `errors.Is(err, syscall.ESRCH)` on a `pgid` failure. -/
def PgidFail.isEsrch : PgidFail → Bool
  | .os .esrch => true
  | _ => false

/-- The recorded abnormal-exit outcome
(`fmt.Errorf("daemon %s exited with error: exitCode=%d, %w", ...)`):
it names the daemon and carries the exit code. -/
structure AbnormalExit where
  name : String
  code : Int
  deriving DecidableEq, Repr

/-- The `Process` field of an `exec.Cmd`: present once the spawn
succeeded. -/
structure ProcHandle where
  pid : Int
  deriving DecidableEq, Repr

/-- An `exec.Cmd` as far as the supervisor inspects it: its `Process`
field. -/
structure GoCmd where
  process : Option ProcHandle
  deriving DecidableEq, Repr

/-- The `Daemon` struct fields the lifecycle logic reads and writes.
`doneClosed` models whether the `done` channel has been closed by the
background waiter. -/
structure DaemonState where
  name : String
  commands : List String
  workdir : String
  cmd : Option GoCmd
  exitError : Option AbnormalExit
  doneClosed : Bool
  deriving DecidableEq, Repr

/-- The guard `d.cmd == nil || d.cmd.Process == nil` shared by `Stop`,
`Status` and `pgid`. -/
def handleAbsent (d : DaemonState) : Bool :=
  match d.cmd with
  | none => true
  | some c => c.process.isNone

/-- `Daemon.pgid`: `ErrDaemonNotRunning` when the handle is absent,
otherwise the result of `syscall.Getpgid` (supplied by the
environment). -/
def Dpgid (d : DaemonState) (osRes : Except PgidErr Int) : Except PgidFail Int :=
  if handleAbsent d then .error .notRunning
  else
    match osRes with
    | .error e => .error (.os e)
    | .ok pgid => .ok pgid

/-- Which arm of `Stop`'s three-way `select` fires: the caller's context
is done, the waiter's `done` channel is closed, or the 10-second grace
timer expires. -/
inductive StopBranch where
  | ctxDone
  | waiterDone
  | timeout
  deriving DecidableEq, Repr

/-- Environment of one `Stop` call: the `Getpgid` result, the result of
the graceful `Kill(-pgid, SIGINT)` (`none` = success), and the `select`
arm that fires. -/
structure StopEnv where
  pgidResult : Except PgidErr Int
  sigintErr : Option KillErr
  branch : StopBranch
  deriving Repr

/-- The result `Stop` returns. -/
inductive StopResult where
  | ok
  | notRunning
  | pgidErr (e : PgidFail)
  | sigtermErr (e : KillErr)
  | ctxCanceled
  | exitErr (e : AbnormalExit)
  | gracefulTimeout
  deriving DecidableEq, Repr

/-- The three raced arms of `Stop`'s `select`, given the resolved group
id: caller cancellation and grace timeout escalate with `SIGKILL` and
then block on `done`; the waiter arm surfaces the recorded `exitError`
(nil when none was recorded).  The returned event list omits the
graceful `SIGINT` send, which `DStop` prepends. -/
def stopSelect (d : DaemonState) (env : StopEnv) (pgid : Int) :
    StopResult × List Event :=
  match env.branch with
  | .ctxDone =>
      (.ctxCanceled, [.kill (-pgid) .sigkill, .waiterDone])
  | .waiterDone =>
      (match d.exitError with
       | some e => .exitErr e
       | none => .ok, [.waiterDone])
  | .timeout =>
      (.gracefulTimeout, [.kill (-pgid) .sigkill, .waiterDone])

/-- `Daemon.Stop`: nil-handle check, group-id resolution, graceful
`SIGINT` to the negated group id tolerating `os.ErrProcessDone`, then the
three-way `select`.  Returns the result, the (unchanged) daemon state,
and the events performed in order. -/
def DStop (d : DaemonState) (env : StopEnv) :
    StopResult × DaemonState × List Event :=
  if handleAbsent d then (.notRunning, d, [])
  else
    match Dpgid d env.pgidResult with
    | .error e => (.pgidErr e, d, [])
    | .ok pgid =>
      match env.sigintErr with
      | some e =>
        if e.isProcessDone then
          let r := stopSelect d env pgid
          (r.1, d, .kill (-pgid) .sigint :: r.2)
        else
          (.sigtermErr e, d, [.kill (-pgid) .sigint])
      | none =>
        let r := stopSelect d env pgid
        (r.1, d, .kill (-pgid) .sigint :: r.2)

/-- What the OS reported to `cmd.Wait()` in the background waiter:
success, an `exec.ExitError` (with the `Sys()` cast result, `Signaled()`,
`Exited()` and `ExitCode()` the waiter inspects), or some other error. -/
inductive WaitResult where
  | ok
  | exit (sysOk : Bool) (signaled : Bool) (exited : Bool) (exitCode : Int)
  | otherErr (n : Nat)
  deriving DecidableEq, Repr

/-- The `exitError` update performed by the waiter body: only a
non-signaled, non-clean `exec.ExitError` records an outcome; a wait
error that is not an `exec.ExitError` is merely logged. -/
def waiterRecord (d : DaemonState) (w : WaitResult) : DaemonState :=
  match w with
  | .ok => d
  | .exit sysOk sg ex code =>
      if sysOk && sg then d
      else if ex && code == 0 then d
      else { d with exitError := some { name := d.name, code := code } }
  | .otherErr _ => d

/-- The background waiter spawned by `Start`: runs `waiterRecord` on the
wait result and then closes `done` (the `defer close(d.done)`). -/
def Dwaiter (d : DaemonState) (w : WaitResult) : DaemonState :=
  { waiterRecord d w with doneClosed := true }

/-- The lifecycle state strings of `DaemonStatus`. -/
abbrev DaemonStatus := String

/-- The constant `DaemonStatusRunning`. -/
def DaemonStatusRunning : DaemonStatus := "running"

/-- The constant `DaemonStatusStopped`. -/
def DaemonStatusStopped : DaemonStatus := "stopped"

/-- Environment of one `Status` call: the `Getpgid` result and the
result of the liveness probe `Kill(-pgid, 0)` (`none` = success). -/
structure StatusEnv where
  pgidResult : Except PgidErr Int
  probeErr : Option KillErr
  deriving Repr

/-- Error `Status` returns: wrapped group-id resolution failure
(`fmt.Errorf("pgid: %w", err)`) or wrapped probe failure
(`fmt.Errorf("daemon %s is not running: %w", ...)`). -/
inductive StatusErr where
  | pgidWrap (e : PgidFail)
  | probeWrap (e : KillErr)
  deriving DecidableEq, Repr

/-- `Daemon.Status`: nil-handle check, group-id resolution with ESRCH
self-healing, then the null-signal liveness probe with
`os.ErrProcessDone` self-healing.  Returns the reported status and
error, the (possibly handle-cleared) daemon state, and the events
performed. -/
def DStatus (d : DaemonState) (env : StatusEnv) :
    (DaemonStatus × Option StatusErr) × DaemonState × List Event :=
  if handleAbsent d then ((DaemonStatusStopped, none), d, [])
  else
    match Dpgid d env.pgidResult with
    | .error e =>
      if e.isEsrch then ((DaemonStatusStopped, none), { d with cmd := none }, [])
      else ((DaemonStatusStopped, some (.pgidWrap e)), d, [])
    | .ok pgid =>
      match env.probeErr with
      | some e =>
        if e.isProcessDone then
          ((DaemonStatusStopped, none), { d with cmd := none }, [.kill (-pgid) .nullSig])
        else
          ((DaemonStatusStopped, some (.probeWrap e)), d, [.kill (-pgid) .nullSig])
      | none => ((DaemonStatusRunning, none), d, [.kill (-pgid) .nullSig])

/-- A Go `context.Context` as far as the supervisor uses it: whether its
`Done` channel can ever fire. -/
structure Ctx where
  cancelable : Bool
  deriving DecidableEq, Repr

/-- `context.WithoutCancel`: the derived context's `Done` channel never
fires. -/
def contextWithoutCancel (_c : Ctx) : Ctx :=
  { cancelable := false }

/-- The spawn-mechanism kill of `exec.CommandContext`: it kills the
child exactly when the context it was given fires, which a context can
do only if it is cancelable. -/
def ctxKillsChild (c : Ctx) : Bool :=
  c.cancelable

/-- The argv access `d.Commands[0]` / `d.Commands[1:]` performed by
`Start`: on an empty command slice the index-0 access is out of range
(a Go runtime panic), modelled as `none`. -/
def buildArgv (cmds : List String) : Option (String × List String) :=
  match cmds with
  | [] => none
  | c :: rest => some (c, rest)

/-- The OS error of a failed `cmd.Start()`. -/
structure SpawnOsErr where
  code : Nat
  deriving DecidableEq, Repr

/-- The configuration of a successfully spawned child and the goroutines
`Start` launched. -/
structure StartEffects where
  spawnCtx : Ctx
  argv0 : String
  argvRest : List String
  dir : String
  outToLogger : Bool
  errToLogger : Bool
  setpgid : Bool
  watcherSpawned : Bool
  waiterSpawned : Bool
  deriving DecidableEq, Repr

/-- Outcome of a `Start` call: a Go runtime panic (index out of range,
before any spawn), a returned wrapped spawn error, or a running child
with its effects. -/
inductive StartOutcome where
  | panicked
  | failed (e : SpawnOsErr)
  | started (eff : StartEffects)
  deriving DecidableEq, Repr

/-- `Daemon.Start`: builds argv from the command slice (panicking on an
empty slice), spawns under `context.WithoutCancel(ctx)` with the logger
as stdout and stderr, the working directory set and `Setpgid`, and on
success records the new `cmd` handle and launches the cancellation
watcher and the background waiter. -/
def DStart (d : DaemonState) (ctx : Ctx) (spawnErr : Option SpawnOsErr)
    (pid : Int) : StartOutcome × DaemonState :=
  match buildArgv d.commands with
  | none => (.panicked, d)
  | some (c0, rest) =>
    let dctx := contextWithoutCancel ctx
    match spawnErr with
    | some e => (.failed e, { d with cmd := some { process := none } })
    | none =>
      (.started
        { spawnCtx := dctx, argv0 := c0, argvRest := rest, dir := d.workdir,
          outToLogger := true, errToLogger := true, setpgid := true,
          watcherSpawned := true, waiterSpawned := true },
       { d with cmd := some { process := some { pid := pid } } })

/-- Which arm of the cancellation watcher's `select` fires: the context
given to `Start` is done, or the waiter closed the `done` channel
first. -/
inductive WatcherBranch where
  | ctxDone
  | daemonDone
  deriving DecidableEq, Repr

/-- What the watcher goroutine ends up doing. -/
inductive WatcherAction where
  | callStop
  | noop
  deriving DecidableEq, Repr

/-- The body of the cancellation watcher launched by `Start`: when the
`done` channel wins the race it only logs; when the context fires it
consults `Status` — a status error is logged and Stop is still called, a
non-`Running` status returns without stopping, and otherwise `Stop` is
invoked. -/
def watcherAct (branch : WatcherBranch) (statusRes : DaemonStatus × Option StatusErr) :
    WatcherAction :=
  match branch with
  | .daemonDone => .noop
  | .ctxDone =>
    match statusRes.2 with
    | some _ => .callStop
    | none =>
      if statusRes.1 ≠ DaemonStatusRunning then .noop
      else .callStop

/-- How many times a watcher action invokes `Stop`. -/
def WatcherAction.stopCalls : WatcherAction → Nat
  | .callStop => 1
  | .noop => 0

/-! ### Concrete fixtures used by witnesses and counterexamples -/

/-- A daemon with a live handle (pid 42), no recorded exit outcome. -/
def runningDaemon : DaemonState :=
  { name := "dev", commands := ["sleep", "100"], workdir := "/tmp",
    cmd := some { process := some { pid := 42 } },
    exitError := none, doneClosed := false }

/-- A daemon on which nothing was ever started. -/
def neverStartedDaemon : DaemonState :=
  { name := "dev", commands := ["sleep", "100"], workdir := "/tmp",
    cmd := none, exitError := none, doneClosed := false }

/-- A daemon with an empty command line. -/
def emptyCmdDaemon : DaemonState :=
  { name := "dev", commands := [], workdir := "/tmp",
    cmd := none, exitError := none, doneClosed := false }

/-- A `Stop` environment: group id resolves to 42, graceful signal
succeeds, the waiter finishes naturally. -/
def stopEnvNatural : StopEnv :=
  { pgidResult := .ok 42, sigintErr := none, branch := .waiterDone }

/-- A `Stop` environment whose graceful signal fails with
`os.ErrProcessDone`. -/
def stopEnvGone : StopEnv :=
  { pgidResult := .ok 42, sigintErr := some .processDone, branch := .waiterDone }

/-- A `Status` environment for a live group: resolution and probe both
succeed. -/
def statusEnvAlive : StatusEnv :=
  { pgidResult := .ok 42, probeErr := none }

/-! ### Claims about the supervisor -/

/-- Claim C1: on every return path of `Stop` that proceeds past the
graceful-signal send (natural exit, caller cancellation, or grace-period
escalation), the negated process group has been sent at least one
termination signal — the graceful `SIGINT` is always attempted first —
and the background waiter's completion has been observed (a receive from
the `done` channel the waiter closes on exit) as the last event before
`Stop` returns. -/
theorem stop_signal_and_reap (d : DaemonState) (env : StopEnv) (pgid : Int)
    (h1 : handleAbsent d = false)
    (h2 : env.pgidResult = .ok pgid)
    (h3 : ∀ e, env.sigintErr = some e → e.isProcessDone = true) :
    Event.kill (-pgid) Sig.sigint ∈ (DStop d env).2.2 ∧
    (DStop d env).2.2.getLast? = some Event.waiterDone := by
  rcases env with ⟨pr, se, br⟩
  simp only at h2 h3
  subst h2
  cases se with
  | none =>
    cases br <;> simp [DStop, Dpgid, stopSelect, h1]
  | some e =>
    have he := h3 e rfl
    cases br <;> simp [DStop, Dpgid, stopSelect, h1, he]

/-- Witness for C1: a natural-exit `Stop` on a live daemon sends the
graceful signal and ends with the waiter-completion observation. -/
theorem stop_signal_and_reap_witness :
    Event.kill (-42) Sig.sigint ∈ (DStop runningDaemon stopEnvNatural).2.2 ∧
    (DStop runningDaemon stopEnvNatural).2.2.getLast? = some Event.waiterDone :=
  stop_signal_and_reap runningDaemon stopEnvNatural 42 rfl rfl
    (by intro e h; simp [stopEnvNatural] at h)

/-- Claim C2: `Stop` on a supervisor with no live handle — never
started, or the handle already cleared after the process was confirmed
dead — returns the `ErrDaemonNotRunning` error, leaves the state
unchanged, performs no signal send, and does not crash. -/
theorem stop_not_running (d : DaemonState) (env : StopEnv)
    (h : handleAbsent d = true) :
    DStop d env = (.notRunning, d, []) := by
  simp [DStop, h]

/-- Witness for C2: `Stop` on a never-started daemon. -/
theorem stop_not_running_witness :
    DStop neverStartedDaemon stopEnvNatural = (.notRunning, neverStartedDaemon, []) :=
  stop_not_running neverStartedDaemon stopEnvNatural rfl

/-- Claim C3 counterexample: a wait error that is not an
`exec.ExitError` is only logged by the background waiter — `exitError`
stays unrecorded — so a natural-exit `Stop` after it returns nil, where
the claim requires an error outcome to have been recorded and
returned. -/
theorem waiter_other_error_unrecorded_cex :
    (Dwaiter runningDaemon (.otherErr 7)).exitError = none ∧
    (DStop (Dwaiter runningDaemon (.otherErr 7)) stopEnvNatural).1 = .ok := by
  constructor <;> rfl

/-- Claim C3 (amended): the waiter records the terminal outcome
classifying a signaled termination as clean, exit code 0 as clean and a
nonzero exit as an error outcome carrying the exit code, while a wait
error that is not an exit status is only logged and leaves the recorded
outcome unchanged (clean); the waiter always signals completion; and
when `Stop`'s wait ends via the waiter finishing naturally, `Stop`
returns exactly the recorded outcome (nil when none was recorded). -/
theorem waiter_outcome_recording (d : DaemonState) (env : StopEnv) (pgid : Int)
    (w : WaitResult) (ex : Bool) (code : Int) (n : Nat)
    (h1 : handleAbsent d = false) (h2 : env.pgidResult = .ok pgid)
    (h3 : env.sigintErr = none) (h4 : env.branch = .waiterDone) :
    (Dwaiter d .ok).exitError = d.exitError ∧
    (Dwaiter d (.exit true true ex code)).exitError = d.exitError ∧
    (Dwaiter d (.exit true false true 0)).exitError = d.exitError ∧
    (code ≠ 0 → (Dwaiter d (.exit true false true code)).exitError
        = some { name := d.name, code := code }) ∧
    (Dwaiter d (.otherErr n)).exitError = d.exitError ∧
    (Dwaiter d w).doneClosed = true ∧
    (DStop d env).1 = (match d.exitError with
      | some e => StopResult.exitErr e
      | none => StopResult.ok) := by
  refine ⟨rfl, rfl, rfl, ?_, rfl, rfl, ?_⟩
  · intro hc
    simp [Dwaiter, waiterRecord, hc]
  · simp [DStop, Dpgid, stopSelect, h1, h2, h3, h4]

/-- Witness for C3 (amended): a nonzero exit (code 3) is recorded with
its exit code, and a natural-exit `Stop` with nothing recorded returns
nil. -/
theorem waiter_outcome_recording_witness :
    (Dwaiter runningDaemon (.exit true false true 3)).exitError
        = some { name := runningDaemon.name, code := 3 } ∧
    (DStop runningDaemon stopEnvNatural).1 = .ok := by
  have h := waiter_outcome_recording runningDaemon stopEnvNatural 42
    .ok false 3 0 rfl rfl rfl rfl
  exact ⟨h.2.2.2.1 (by decide), h.2.2.2.2.2.2⟩

/-- Claim C4: when the graceful signal to the negated group fails with
`os.ErrProcessDone` ("process group already gone"), `Stop` behaves
exactly as if the send had succeeded; it returns the wrapped
signal-failure error exactly for send failures with any other reason,
and a signal-failure result arises in no other way. -/
theorem stop_graceful_signal_tolerance (d : DaemonState) (env : StopEnv)
    (pgid : Int) (e : KillErr)
    (h1 : handleAbsent d = false) (h2 : env.pgidResult = .ok pgid) :
    (env.sigintErr = some e → e.isProcessDone = true →
      DStop d env = DStop d { env with sigintErr := none }) ∧
    (env.sigintErr = some e → e.isProcessDone = false →
      DStop d env = (.sigtermErr e, d, [.kill (-pgid) .sigint])) ∧
    ((DStop d env).1 = .sigtermErr e →
      env.sigintErr = some e ∧ e.isProcessDone = false) := by
  refine ⟨?_, ?_, ?_⟩
  · intro h3 he
    simp only [DStop, Dpgid, h1, h2, h3, he]
    cases hb : env.branch <;> simp [stopSelect, hb]
  · intro h3 he
    simp [DStop, Dpgid, h1, h2, h3, he]
  · intro hr
    cases hse : env.sigintErr with
    | none =>
      simp only [DStop, Dpgid, h1, h2, hse] at hr
      simp only [Bool.false_eq_true, if_false] at hr
      cases hb : env.branch <;> simp [stopSelect, hb] at hr
      cases hde : d.exitError <;> simp [hde] at hr
    | some e2 =>
      cases hpd : e2.isProcessDone with
      | true =>
        simp only [DStop, Dpgid, h1, h2, hse, hpd] at hr
        simp only [Bool.false_eq_true, if_false, if_true] at hr
        cases hb : env.branch <;> simp [stopSelect, hb] at hr
        cases hde : d.exitError <;> simp [hde] at hr
      | false =>
        simp only [DStop, Dpgid, h1, h2, hse, hpd] at hr
        simp only [Bool.false_eq_true, if_false] at hr
        simp at hr
        subst hr
        exact ⟨rfl, hpd⟩

/-- Witness for C4: with the graceful signal failing as
`os.ErrProcessDone`, `Stop` returns the same result as when the signal
succeeds. -/
theorem stop_graceful_signal_tolerance_witness :
    DStop runningDaemon stopEnvGone
      = DStop runningDaemon { stopEnvGone with sigintErr := none } :=
  (stop_graceful_signal_tolerance runningDaemon stopEnvGone 42 .processDone
    rfl rfl).1 rfl rfl

/-- Claim C5: `Status` with no handle reports `Stopped` with no error;
an ESRCH group-id resolution failure clears the handle and reports
`Stopped` with no error; a successful null-signal probe reports
`Running`; a probe failing with `os.ErrProcessDone` clears the handle
and reports `Stopped` with no error; any other resolution or probe error
reports `Stopped` with the wrapped diagnostic error; and in every branch
the resulting state is the input state except for the handle clear in
the two self-healing branches. -/
theorem status_full_postcondition (d : DaemonState) (env : StatusEnv)
    (pgid : Int) (e : PgidErr) (ke : KillErr) :
    (handleAbsent d = true →
      DStatus d env = ((DaemonStatusStopped, none), d, [])) ∧
    (handleAbsent d = false → env.pgidResult = .error .esrch →
      DStatus d env = ((DaemonStatusStopped, none), { d with cmd := none }, [])) ∧
    (handleAbsent d = false → env.pgidResult = .error e → e ≠ .esrch →
      DStatus d env = ((DaemonStatusStopped, some (.pgidWrap (.os e))), d, [])) ∧
    (handleAbsent d = false → env.pgidResult = .ok pgid → env.probeErr = none →
      DStatus d env
        = ((DaemonStatusRunning, none), d, [.kill (-pgid) .nullSig])) ∧
    (handleAbsent d = false → env.pgidResult = .ok pgid →
      env.probeErr = some ke → ke.isProcessDone = true →
      DStatus d env
        = ((DaemonStatusStopped, none), { d with cmd := none },
           [.kill (-pgid) .nullSig])) ∧
    (handleAbsent d = false → env.pgidResult = .ok pgid →
      env.probeErr = some ke → ke.isProcessDone = false →
      DStatus d env
        = ((DaemonStatusStopped, some (.probeWrap ke)), d,
           [.kill (-pgid) .nullSig])) := by
  refine ⟨?_, ?_, ?_, ?_, ?_, ?_⟩
  · intro h1
    simp [DStatus, h1]
  · intro h1 h2
    simp [DStatus, Dpgid, PgidFail.isEsrch, h1, h2]
  · intro h1 h2 h3
    have he : (PgidFail.os e).isEsrch = false := by
      cases e with
      | esrch => exact absurd rfl h3
      | other n => rfl
    simp [DStatus, Dpgid, h1, h2, he]
  · intro h1 h2 h3
    simp [DStatus, Dpgid, h1, h2, h3]
  · intro h1 h2 h3 h4
    simp [DStatus, Dpgid, h1, h2, h3, h4]
  · intro h1 h2 h3 h4
    simp [DStatus, Dpgid, h1, h2, h3, h4]

/-- Witness for C5: a live daemon whose probe succeeds is reported
`Running` with no error and no state change. -/
theorem status_full_postcondition_witness :
    DStatus runningDaemon statusEnvAlive
      = ((DaemonStatusRunning, none), runningDaemon, [.kill (-42) .nullSig]) :=
  (status_full_postcondition runningDaemon statusEnvAlive 42 .esrch
    .processDone).2.2.2.1 rfl rfl rfl

/-- Claim C6: a successful `Start` spawns the child under
`context.WithoutCancel` of the caller's context, so the spawn
mechanism's cancellation kill can never fire from the caller's context,
and launches the separate cancellation watcher; the watcher invokes
`Stop` when the caller's context fires while the daemon still reports
`Running`, is a no-op when the waiter already finished or the daemon
already reports `Stopped`, and never invokes `Stop` more than once. -/
theorem start_detached_cancellation (d : DaemonState) (ctx : Ctx) (pid : Int)
    (s : DaemonStatus × Option StatusErr) :
    (d.commands ≠ [] → ∃ eff d2,
      DStart d ctx none pid = (.started eff, d2) ∧
      eff.spawnCtx = contextWithoutCancel ctx ∧
      ctxKillsChild eff.spawnCtx = false ∧
      eff.watcherSpawned = true ∧ eff.waiterSpawned = true) ∧
    (watcherAct .daemonDone s = .noop) ∧
    (watcherAct .ctxDone (DaemonStatusStopped, none) = .noop) ∧
    (watcherAct .ctxDone (DaemonStatusRunning, none) = .callStop) ∧
    (∀ b t, (watcherAct b t).stopCalls ≤ 1) := by
  refine ⟨?_, rfl, by decide, rfl, ?_⟩
  · intro hne
    cases hc : d.commands with
    | nil => exact absurd hc hne
    | cons c0 rest =>
      refine ⟨({ spawnCtx := contextWithoutCancel ctx, argv0 := c0,
                 argvRest := rest, dir := d.workdir, outToLogger := true,
                 errToLogger := true, setpgid := true, watcherSpawned := true,
                 waiterSpawned := true } : StartEffects),
        ({ d with cmd := some { process := some { pid := pid } } } : DaemonState),
        ?_, rfl, rfl, rfl, rfl⟩
      simp [DStart, buildArgv, hc]
  · intro b t
    cases b with
    | daemonDone => exact Nat.zero_le 1
    | ctxDone =>
      cases ht : t.2 with
      | some e => simp [watcherAct, ht, WatcherAction.stopCalls]
      | none =>
        by_cases hr : t.1 = DaemonStatusRunning <;>
          simp [watcherAct, ht, hr, WatcherAction.stopCalls]

/-- Witness for C6: starting the never-started daemon succeeds with a
non-cancelable spawn context and both goroutines launched. -/
theorem start_detached_cancellation_witness :
    ∃ eff d2,
      DStart neverStartedDaemon { cancelable := true } none 42 = (.started eff, d2) ∧
      eff.spawnCtx = contextWithoutCancel { cancelable := true } ∧
      ctxKillsChild eff.spawnCtx = false ∧
      eff.watcherSpawned = true ∧ eff.waiterSpawned = true :=
  (start_detached_cancellation neverStartedDaemon { cancelable := true } 42
    (DaemonStatusRunning, none)).1 (by decide)

/-- Claim C10: `Start` never checks the command slice for emptiness: a
non-empty command line makes the index-0 and tail accesses of the argv
build in bounds (and `Start` does not panic), while an empty command
line makes the index-0 access out of range — a Go runtime panic before
any spawn, with the state untouched — and never the returned wrapped
spawn error. -/
theorem start_no_emptiness_check (d : DaemonState) (ctx : Ctx)
    (se : Option SpawnOsErr) (pid : Int) :
    (∀ c rest, d.commands = c :: rest →
      buildArgv d.commands = some (c, rest) ∧
      (DStart d ctx se pid).1 ≠ .panicked) ∧
    (d.commands = [] →
      DStart d ctx se pid = (.panicked, d) ∧
      ∀ e, (DStart d ctx se pid).1 ≠ .failed e) := by
  constructor
  · intro c rest h
    refine ⟨by simp [buildArgv, h], ?_⟩
    cases se <;> simp [DStart, buildArgv, h]
  · intro h
    refine ⟨by simp [DStart, buildArgv, h], ?_⟩
    intro e
    simp [DStart, buildArgv, h]

/-- Witness for C10: `Start` on an empty command line panics with the
state untouched. -/
theorem start_no_emptiness_check_witness :
    DStart emptyCmdDaemon { cancelable := true } none 1
      = (.panicked, emptyCmdDaemon) :=
  ((start_no_emptiness_check emptyCmdDaemon { cancelable := true } none 1).2
    rfl).1
